import Mathlib

/-!
Shallow embedding of the yfinance financial-data downloader (src/fa.py).

The program is a single pipeline `fetch_and_create_excel` that, given a
ticker, queries the yfinance provider for six financial tables and an
info/metadata record, extracts ten key statistics from the info record,
and writes the surviving tables as sheets of an in-memory Excel workbook.

Modelling decisions:
* A pandas `DataFrame` is a matrix with row labels (`index`), column
  labels (`columns`), optional axis names, and a rectangular `data` grid.
  `df.empty` in pandas is true iff either axis has length zero.
* The yfinance `Ticker` object is modelled by a `Stock` record giving, for
  the info record and for each of the six table accessors, either the
  fetched value (`Except.ok`) or a raised provider exception
  (`Except.error ()`).  The six table properties in fa.py are read
  sequentially and are not wrapped in try/except, so a raise there
  propagates; the info access (lines 23-29) is wrapped, and the
  Excel-writing block (lines 81-102) is wrapped.
* The result of `fetch_and_create_excel` is `Except.ok none` for the
  Python `return None` paths, `Except.ok (some wb)` for a returned
  workbook buffer (the workbook is the ordered list of written sheets),
  and `Except.error ()` for an exception escaping the function.
  `tableFetches` counts how many of the six table properties were read.
* In fa.py line 94, `df.T.index.name = "Date"` mutates the shared pandas
  Index object (the transposed frame reuses `df.columns`), so the frame
  written on line 95 is the transpose of `df` with its row axis named
  "Date"; `writtenSheet` models that net effect.
-/

set_option autoImplicit false

namespace YFin

/-- A scalar cell value as found in a yfinance info record or table cell:
a string, a number, or the Python `None` / pandas missing value. -/
inductive Value where
  | str (s : String)
  | num (n : Int)
  | null
  deriving DecidableEq

/-- The yfinance info/metadata record: a flat dictionary from field name to
scalar value, modelled as an association list with distinct keys (lookup
takes the first match, as a dict would). -/
abbrev Info := List (String × Value)

/-- Dictionary lookup, `d[k]` as an `Option`: `info.get(k)` in Python
returns the value when the key is present and `None` otherwise. -/
def getField? (info : Info) (k : String) : Option Value :=
  (info.find? (fun p => p.1 = k)).map (fun p => p.2)

/-- A pandas DataFrame: named row/column axes, row labels, column labels,
and a rectangular grid of cells (one inner list per row). -/
structure DataFrame where
  indexName : Option String
  columnsName : Option String
  index : List String
  columns : List String
  data : List (List Value)
  deriving DecidableEq

/-- Pandas `DataFrame.empty`: true iff any of the two axes has length 0. -/
def DataFrame.empty (df : DataFrame) : Bool :=
  df.index.isEmpty || df.columns.isEmpty

/-- Pandas `DataFrame.T`: swap the two axes; cell (j, i) of the transpose
is cell (i, j) of the original. -/
def DataFrame.T (df : DataFrame) : DataFrame :=
  { indexName := df.columnsName
    columnsName := df.indexName
    index := df.columns
    columns := df.index
    data := (List.range df.columns.length).map
      (fun j => df.data.map (fun row => row.getD j Value.null)) }

/-- Cell access with out-of-range defaulting, used to state transpose
correctness: `df.cell i j` is the entry in row `i`, column `j`. -/
def DataFrame.cell (df : DataFrame) (i j : Nat) : Value :=
  (df.data.getD i []).getD j Value.null

instance exceptDecEq {ε α : Type} [DecidableEq ε] [DecidableEq α] :
    DecidableEq (Except ε α) := fun x y =>
  match x, y with
  | Except.ok a, Except.ok b =>
    if h : a = b then isTrue (by rw [h])
    else isFalse (by intro he; cases he; exact h rfl)
  | Except.ok _, Except.error _ => isFalse (by intro h; cases h)
  | Except.error _, Except.ok _ => isFalse (by intro h; cases h)
  | Except.error e, Except.error f =>
    if h : e = f then isTrue (by rw [h])
    else isFalse (by intro he; cases he; exact h rfl)

/-- The yfinance `Ticker` object as seen by fa.py: the info record and the
six financial-table properties, each either fetched data (`Except.ok`) or
a raised provider-side exception (`Except.error ()`). -/
structure Stock where
  infoResult : Except Unit Info
  financials : Except Unit DataFrame
  balance_sheet : Except Unit DataFrame
  cashflow : Except Unit DataFrame
  quarterly_financials : Except Unit DataFrame
  quarterly_balance_sheet : Except Unit DataFrame
  quarterly_cashflow : Except Unit DataFrame
  deriving DecidableEq

/-- fa.py lines 61-72: the `key_stats_raw` dictionary, in insertion order.
`info.get(k)` with no default maps an absent key to Python `None`
(`Value.null`); `longName` alone defaults to the string `N/A`. -/
def key_stats_raw (info : Info) : List (String × Value) :=
  [("Full Name (전체 이름)", (getField? info "longName").getD (Value.str "N/A")),
   ("Market Cap (시가총액)", (getField? info "marketCap").getD Value.null),
   ("Trailing P/E (PER)", (getField? info "trailingPE").getD Value.null),
   ("Price/Book (PBR)", (getField? info "priceToBook").getD Value.null),
   ("Return On Equity (ROE)", (getField? info "returnOnEquity").getD Value.null),
   ("5Y EPS Growth (5년 EPS 성장률)", (getField? info "fiveYearAvgProfitGrowth").getD Value.null),
   ("Dividend Yield (배당수익률)", (getField? info "dividendYield").getD Value.null),
   ("Beta (시장 민감도)", (getField? info "beta").getD Value.null),
   ("Forward P/E (선행 PER)", (getField? info "forwardPE").getD Value.null),
   ("Shares Outstanding (총 발행 주식수)", (getField? info "sharesOutstanding").getD Value.null)]

/-- fa.py lines 74-75: `pd.DataFrame.from_dict(key_stats_raw,
orient="index", columns=["Value"])` with the index named `Metric`:
metric names are the rows, a single `Value` column holds the values. -/
def stats_df (info : Info) : DataFrame :=
  { indexName := some "Metric"
    columnsName := none
    index := (key_stats_raw info).map Prod.fst
    columns := ["Value"]
    data := (key_stats_raw info).map (fun p => [p.2]) }

/-- fa.py lines 39-55: the six table reads in program order, paired with
their sheet names. -/
def tableSpecs (s : Stock) : List (String × Except Unit DataFrame) :=
  [("Income_Statement (연간)", s.financials),
   ("Balance_Sheet (연간)", s.balance_sheet),
   ("Cash_Flow (연간)", s.cashflow),
   ("Income_Statement (분기)", s.quarterly_financials),
   ("Balance_Sheet (분기)", s.quarterly_balance_sheet),
   ("Cash_Flow (분기)", s.quarterly_cashflow)]

/-- The sequential table-collection loop of fa.py lines 39-55: each table
is read in order; a non-empty result is inserted into `financial_data`
under its sheet name, an empty result is skipped, and a raised exception
aborts the remaining reads (there is no try/except around these lines).
The second component counts how many table reads were attempted. -/
def collectTables :
    List (String × Except Unit DataFrame) →
      Except Unit (List (String × DataFrame)) × Nat
  | [] => (Except.ok [], 0)
  | p :: rest =>
    match p.2 with
    | Except.error e => (Except.error e, 1)
    | Except.ok df =>
      let r := collectTables rest
      (Except.map (fun ts => if df.empty then ts else (p.1, df) :: ts) r.1,
       r.2 + 1)

/-- fa.py lines 88-95: the frame actually written for a sheet: the
statistics sheet is written as-is, every other (financial) sheet is
written transposed with its row axis labelled `Date`. -/
def writtenSheet (sheet_name : String) (df : DataFrame) : DataFrame :=
  if sheet_name = "Key_Statistics" then df
  else { df.T with indexName := some "Date" }

/-- fa.py lines 83-97: the writer loop over `financial_data`: frames that
are non-empty are written (transformed by `writtenSheet`), empty ones are
skipped; `is_data_present` is true iff this list is non-empty. -/
def writeSheets (fd : List (String × DataFrame)) : List (String × DataFrame) :=
  (fd.filter (fun p => !p.2.empty)).map (fun p => (p.1, writtenSheet p.1 p.2))

/-- The observable outcome of one call to `fetch_and_create_excel`:
the returned value (or escaped exception) and how many of the six
financial-table properties were read. -/
structure Outcome where
  result : Except Unit (Option (List (String × DataFrame)))
  tableFetches : Nat
  deriving DecidableEq

/-- fa.py lines 18-108, `fetch_and_create_excel`: validate the info record
(exceptions caught, empty info fails fast), read the six tables, append
the statistics frame under `Key_Statistics`, then write every non-empty
frame as a sheet.  `writeOk` says whether the Excel-writing block raises;
a raise there is caught and yields `None`.  If no sheet was written
(`is_data_present` stayed false) the function returns `None`; otherwise it
returns the buffer, modelled as the ordered list of written sheets. -/
def fetch_and_create_excel (s : Stock) (writeOk : Bool) : Outcome :=
  match s.infoResult with
  | Except.error _ => { result := Except.ok none, tableFetches := 0 }
  | Except.ok info =>
    if info.isEmpty then { result := Except.ok none, tableFetches := 0 }
    else
      match collectTables (tableSpecs s) with
      | (Except.error e, n) => { result := Except.error e, tableFetches := n }
      | (Except.ok tables, n) =>
        let financial_data := tables ++ [("Key_Statistics", stats_df info)]
        if writeOk then
          let sheets := writeSheets financial_data
          if sheets.isEmpty then { result := Except.ok none, tableFetches := n }
          else { result := Except.ok (some sheets), tableFetches := n }
        else { result := Except.ok none, tableFetches := n }

/-! ### Concrete fixtures used by counterexamples and witnesses -/

/-- The empty frame yfinance returns when a statement is unavailable. -/
def emptyDF : DataFrame :=
  { indexName := none, columnsName := none, index := [], columns := [], data := [] }

/-- A small non-empty annual income statement: line items as rows, period
end dates as columns, as yfinance delivers it. -/
def dfIncomeA : DataFrame :=
  { indexName := none
    columnsName := none
    index := ["Total Revenue", "Net Income"]
    columns := ["2023-12-31", "2022-12-31"]
    data := [[Value.num 96773000000, Value.num 81462000000],
             [Value.num 14997000000, Value.num 12583000000]] }

/-- A small non-empty annual cash-flow statement. -/
def dfCashA : DataFrame :=
  { indexName := none
    columnsName := none
    index := ["Free Cash Flow"]
    columns := ["2023-12-31", "2022-12-31"]
    data := [[Value.num 4357000000, Value.num 7566000000]] }

/-- A degenerate frame with one row label but zero columns: pandas counts
it as empty (`len(df.columns) == 0`) although `len(df) == 1`. -/
def rowNoColDF : DataFrame :=
  { indexName := none, columnsName := none
    index := ["Total Revenue"], columns := [], data := [[]] }

/-- A non-empty info record. -/
def infoA : Info :=
  [("longName", Value.str "Tesla, Inc."), ("marketCap", Value.num 800000000000)]

/-- A non-empty info record that lacks all ten statistics fields. -/
def infoBare : Info := [("symbol", Value.str "TSLA")]

/-- Provider rejects the ticker: the info access raises. -/
def stockInfoError : Stock :=
  { infoResult := Except.error ()
    financials := Except.ok dfIncomeA
    balance_sheet := Except.ok dfIncomeA
    cashflow := Except.ok dfCashA
    quarterly_financials := Except.ok dfIncomeA
    quarterly_balance_sheet := Except.ok dfIncomeA
    quarterly_cashflow := Except.ok dfCashA }

/-- Provider returns an empty info record, although table data exists. -/
def stockInfoEmpty : Stock :=
  { infoResult := Except.ok []
    financials := Except.ok dfIncomeA
    balance_sheet := Except.ok dfIncomeA
    cashflow := Except.ok dfCashA
    quarterly_financials := Except.ok dfIncomeA
    quarterly_balance_sheet := Except.ok dfIncomeA
    quarterly_cashflow := Except.ok dfCashA }

/-- Valid ticker whose six financial tables are all empty. -/
def stockAllEmpty : Stock :=
  { infoResult := Except.ok infoA
    financials := Except.ok emptyDF
    balance_sheet := Except.ok emptyDF
    cashflow := Except.ok emptyDF
    quarterly_financials := Except.ok emptyDF
    quarterly_balance_sheet := Except.ok emptyDF
    quarterly_cashflow := Except.ok emptyDF }

/-- Valid ticker where the first table access raises a provider error and
the remaining tables would have data. -/
def stockTableError : Stock :=
  { infoResult := Except.ok infoA
    financials := Except.error ()
    balance_sheet := Except.ok dfIncomeA
    cashflow := Except.ok dfCashA
    quarterly_financials := Except.ok dfIncomeA
    quarterly_balance_sheet := Except.ok dfIncomeA
    quarterly_cashflow := Except.ok dfCashA }

/-- Valid ticker where the annual income statement has a row label but no
columns, so pandas reports it empty. -/
def stockRowNoCol : Stock :=
  { infoResult := Except.ok infoA
    financials := Except.ok rowNoColDF
    balance_sheet := Except.ok emptyDF
    cashflow := Except.ok emptyDF
    quarterly_financials := Except.ok emptyDF
    quarterly_balance_sheet := Except.ok emptyDF
    quarterly_cashflow := Except.ok emptyDF }

/-- Valid ticker with a mix of populated and empty tables. -/
def stockMixed : Stock :=
  { infoResult := Except.ok infoA
    financials := Except.ok dfIncomeA
    balance_sheet := Except.ok emptyDF
    cashflow := Except.ok dfCashA
    quarterly_financials := Except.ok emptyDF
    quarterly_balance_sheet := Except.ok emptyDF
    quarterly_cashflow := Except.ok emptyDF }

/-- Valid ticker whose info record lacks all ten statistics fields and
whose six tables are all empty. -/
def stockBare : Stock :=
  { infoResult := Except.ok infoBare
    financials := Except.ok emptyDF
    balance_sheet := Except.ok emptyDF
    cashflow := Except.ok emptyDF
    quarterly_financials := Except.ok emptyDF
    quarterly_balance_sheet := Except.ok emptyDF
    quarterly_cashflow := Except.ok emptyDF }

/-! ### Characterisation helpers for the table-collection loop -/

/-- What one iteration of the collection loop (fa.py lines 41-55)
contributes to `financial_data`: a successfully fetched non-empty table
under its sheet name, nothing otherwise. -/
def pickTable (p : String × Except Unit DataFrame) :
    Option (String × DataFrame) :=
  match p.2 with
  | Except.ok df => if df.empty then none else some (p.1, df)
  | Except.error _ => none

/-- Whether a table read contributes a sheet: it fetched successfully and
is non-empty in the pandas sense. -/
def keepsTable (p : String × Except Unit DataFrame) : Bool :=
  match p.2 with
  | Except.ok df => !df.empty
  | Except.error _ => false

/-- The fixed full sheet order of the workbook (spec section 6). -/
def sheetNameOrder : List String :=
  ["Income_Statement (연간)", "Balance_Sheet (연간)", "Cash_Flow (연간)",
   "Income_Statement (분기)", "Balance_Sheet (분기)", "Cash_Flow (분기)",
   "Key_Statistics"]

/-- Modelled from the claim wording of C5: the row keys the claim says the
Statistics sheet carries, character for character.  This is the spec-side
list, to be compared with the keys `key_stats_raw` actually produces. -/
def claimedStatKeys : List String :=
  ["Full Name", "Market Cap", "Trailing P/E (PER)", "Price/Book (PBR)",
   "Return On Equity (ROE)", "5Y EPS Growth", "Dividend Yield", "Beta",
   "Forward P/E (PER, forward)", "Shares Outstanding"]

/-! ### Helper definitions and lemmas about the statistics extraction -/

/-- The (sheet row label, info-record field) pairs read by
`key_stats_raw`, in the order they appear in fa.py lines 61-72. -/
def statFieldSpecs : List (String × String) :=
  [("Full Name (전체 이름)", "longName"),
   ("Market Cap (시가총액)", "marketCap"),
   ("Trailing P/E (PER)", "trailingPE"),
   ("Price/Book (PBR)", "priceToBook"),
   ("Return On Equity (ROE)", "returnOnEquity"),
   ("5Y EPS Growth (5년 EPS 성장률)", "fiveYearAvgProfitGrowth"),
   ("Dividend Yield (배당수익률)", "dividendYield"),
   ("Beta (시장 민감도)", "beta"),
   ("Forward P/E (선행 PER)", "forwardPE"),
   ("Shares Outstanding (총 발행 주식수)", "sharesOutstanding")]

/-- The marker an absent field receives: the string N/A for `longName`
(fa.py line 62 passes a default to `info.get`), Python `None` for the
other nine fields (`info.get` with a single argument). -/
def missingDefault (field : String) : Value :=
  if field = "longName" then Value.str "N/A" else Value.null

/-- `key_stats_raw` is exactly the field-spec table evaluated against the
info record with per-field missing defaults. -/
theorem key_stats_raw_eq (info : Info) :
    key_stats_raw info =
      statFieldSpecs.map
        (fun p => (p.1, (getField? info p.2).getD (missingDefault p.2))) := rfl

/-- The statistics frame is never empty: it always has the ten metric
rows and the single `Value` column. -/
theorem stats_df_not_empty (info : Info) : (stats_df info).empty = false := rfl

/-- The statistics frame always has exactly ten rows. -/
theorem key_stats_raw_length (info : Info) : (key_stats_raw info).length = 10 := rfl

/-! ### Lemmas about the table-collection loop -/

theorem exceptMap_ok {ε α β : Type} (f : α → β) (a : α) :
    Except.map f (Except.ok a : Except ε α) = Except.ok (f a) := rfl

theorem exceptMap_error {ε α β : Type} (f : α → β) (e : ε) :
    Except.map f (Except.error e : Except ε α) = Except.error e := rfl

/-- When no table read raises, the loop visits all tables and collects
exactly the non-empty ones, in order. -/
theorem collectTables_all_ok (l : List (String × Except Unit DataFrame))
    (h : ∀ p ∈ l, p.2 ≠ Except.error ()) :
    collectTables l = (Except.ok (l.filterMap pickTable), l.length) := by
  induction l with
  | nil => rfl
  | cons p rest ih =>
    have hp : p.2 ≠ Except.error () := h p (List.mem_cons_self p rest)
    cases hq : p.2 with
    | error e => cases e; exact absurd hq hp
    | ok df =>
      have hrest := ih (fun q hq2 => h q (List.mem_cons_of_mem p hq2))
      simp [collectTables, hq, hrest, exceptMap_ok, List.filterMap_cons, pickTable,
        List.length_cons]
      cases hde : df.empty <;> simp [hde]

/-- If some table read in the list raises, the collection loop raises. -/
theorem collectTables_error_of_mem (l : List (String × Except Unit DataFrame))
    (p : String × Except Unit DataFrame) (hp : p ∈ l)
    (he : p.2 = Except.error ()) :
    (collectTables l).1 = Except.error () := by
  induction l with
  | nil => cases hp
  | cons q rest ih =>
    rcases List.mem_cons.mp hp with h | h
    · subst h; simp [collectTables, he]
    · cases hq : q.2 with
      | error e => simp [collectTables, hq]
      | ok df =>
        have hr := ih h
        simp [collectTables, hq, hr, exceptMap_error]

/-- Inversion: a successful collection means every read succeeded, the
collected tables are the non-empty ones in order, and all six reads were
attempted. -/
theorem collectTables_ok_inv (l : List (String × Except Unit DataFrame))
    (ts : List (String × DataFrame)) (n : Nat)
    (h : collectTables l = (Except.ok ts, n)) :
    ts = l.filterMap pickTable ∧ n = l.length ∧
      ∀ p ∈ l, p.2 ≠ Except.error () := by
  have hall : ∀ p ∈ l, p.2 ≠ Except.error () := by
    intro p hp he
    have := collectTables_error_of_mem l p hp he
    rw [h] at this
    cases this
  have := collectTables_all_ok l hall
  rw [h] at this
  refine ⟨?_, ?_, hall⟩
  · exact (Except.ok.inj (congrArg Prod.fst this)).symm ▸ rfl
  · exact congrArg Prod.snd this

/-- Membership in the collected tables: the table was fetched under that
name and is non-empty. -/
theorem mem_pickTable_inv (l : List (String × Except Unit DataFrame))
    (p : String × DataFrame) (h : p ∈ l.filterMap pickTable) :
    (p.1, Except.ok p.2) ∈ l ∧ p.2.empty = false := by
  rcases List.mem_filterMap.mp h with ⟨q, hq, hpick⟩
  cases q with
  | mk qn qr =>
    cases qr with
    | error e => simp [pickTable] at hpick
    | ok df =>
      cases hde : df.empty with
      | true => simp [pickTable, hde] at hpick
      | false =>
        simp [pickTable, hde] at hpick
        cases p with
        | mk pn pdf =>
          obtain ⟨h1, h2⟩ := Prod.mk.injEq .. ▸ hpick
          subst h1; subst h2
          exact ⟨hq, hde⟩

/-- Every collected table is non-empty, so the writer filter keeps it. -/
theorem filterMap_pickTable_fst (l : List (String × Except Unit DataFrame)) :
    (l.filterMap pickTable).map Prod.fst =
      (l.filter keepsTable).map Prod.fst := by
  induction l with
  | nil => rfl
  | cons p rest ih =>
    cases hq : p.2 with
    | ok df =>
      cases hde : df.empty <;>
        simp [pickTable, keepsTable, hq, hde, List.filterMap_cons, List.filter_cons, ih]
    | error e =>
      simp [pickTable, keepsTable, hq, List.filterMap_cons, List.filter_cons, ih]

/-! ### Lemmas about the writer loop and the whole pipeline -/

theorem writeSheets_append (a b : List (String × DataFrame)) :
    writeSheets (a ++ b) = writeSheets a ++ writeSheets b := by
  simp [writeSheets, List.filter_append, List.map_append]

/-- The statistics sheet always survives the writer filter and is written
untransposed. -/
theorem writeSheets_stats (info : Info) :
    writeSheets [("Key_Statistics", stats_df info)] =
      [("Key_Statistics", stats_df info)] := rfl

/-- Decomposing membership in the written sheets. -/
theorem mem_writeSheets (fd : List (String × DataFrame))
    (q : String × DataFrame) (h : q ∈ writeSheets fd) :
    ∃ p ∈ fd, p.2.empty = false ∧ q = (p.1, writtenSheet p.1 p.2) := by
  rcases List.mem_map.mp h with ⟨p, hp, hq⟩
  have hf := List.mem_filter.mp hp
  refine ⟨p, hf.1, ?_, hq.symm⟩
  have := hf.2
  cases hde : p.2.empty with
  | false => rfl
  | true => rw [hde] at this; cases this

/-- The names of the six table reads, in program order. -/
theorem tableSpecs_fst (s : Stock) :
    (tableSpecs s).map Prod.fst =
      ["Income_Statement (연간)", "Balance_Sheet (연간)", "Cash_Flow (연간)",
       "Income_Statement (분기)", "Balance_Sheet (분기)", "Cash_Flow (분기)"] := rfl

/-- No financial sheet is named like the statistics sheet. -/
theorem tableSpecs_name_ne (s : Stock) (nm : String) (r : Except Unit DataFrame)
    (h : (nm, r) ∈ tableSpecs s) : nm ≠ "Key_Statistics" := by
  have : nm ∈ (tableSpecs s).map Prod.fst :=
    List.mem_map.mpr ⟨(nm, r), h, rfl⟩
  rw [tableSpecs_fst] at this
  intro he
  subst he
  simp at this

/-- Running the pipeline when the info record is valid and every table
read succeeds: with a working writer it returns the workbook of written
sheets; the statistics sheet guarantees at least one sheet is written. -/
theorem run_write_ok (s : Stock) (info : Info)
    (tables : List (String × DataFrame)) (n : Nat)
    (h1 : s.infoResult = Except.ok info) (h2 : info.isEmpty = false)
    (h3 : collectTables (tableSpecs s) = (Except.ok tables, n)) :
    fetch_and_create_excel s true =
      { result := Except.ok (some (writeSheets tables ++
          [("Key_Statistics", stats_df info)]))
        tableFetches := n } := by
  have hws : writeSheets (tables ++ [("Key_Statistics", stats_df info)]) =
      writeSheets tables ++ [("Key_Statistics", stats_df info)] := by
    rw [writeSheets_append, writeSheets_stats]
  simp [fetch_and_create_excel, h1, h2, h3, hws]

/-- Running the pipeline when the writer raises: the exception is caught
and the function returns None. -/
theorem run_write_fail (s : Stock) (info : Info)
    (tables : List (String × DataFrame)) (n : Nat)
    (h1 : s.infoResult = Except.ok info) (h2 : info.isEmpty = false)
    (h3 : collectTables (tableSpecs s) = (Except.ok tables, n)) :
    fetch_and_create_excel s false =
      { result := Except.ok none, tableFetches := n } := by
  simp [fetch_and_create_excel, h1, h2, h3]

/-- Running the pipeline when a table read raises: the exception escapes
the function. -/
theorem run_fetch_error (s : Stock) (info : Info) (w : Bool)
    (h1 : s.infoResult = Except.ok info) (h2 : info.isEmpty = false)
    (h3 : (collectTables (tableSpecs s)).1 = Except.error ()) :
    fetch_and_create_excel s w =
      { result := Except.error ()
        tableFetches := (collectTables (tableSpecs s)).2 } := by
  rcases hc : collectTables (tableSpecs s) with ⟨res, n⟩
  rw [hc] at h3
  simp only [] at h3
  subst h3
  simp [fetch_and_create_excel, h1, h2, hc]

/-- Inversion: any returned workbook arises from a valid non-empty info
record, a working writer, six successful table reads, and is exactly the
written non-empty tables followed by the statistics sheet. -/
theorem run_success_inv (s : Stock) (w : Bool) (wb : List (String × DataFrame))
    (h : (fetch_and_create_excel s w).result = Except.ok (some wb)) :
    ∃ info, s.infoResult = Except.ok info ∧ info.isEmpty = false ∧ w = true ∧
      (∀ p ∈ tableSpecs s, p.2 ≠ Except.error ()) ∧
      wb = writeSheets ((tableSpecs s).filterMap pickTable) ++
        [("Key_Statistics", stats_df info)] := by
  cases hi : s.infoResult with
  | error e =>
    rw [show fetch_and_create_excel s w =
        { result := Except.ok none, tableFetches := 0 } by
      simp [fetch_and_create_excel, hi]] at h
    simp at h
  | ok info =>
    refine ⟨info, rfl, ?_⟩
    cases hie : info.isEmpty with
    | true =>
      rw [show fetch_and_create_excel s w =
          { result := Except.ok none, tableFetches := 0 } by
        simp [fetch_and_create_excel, hi, hie]] at h
      simp at h
    | false =>
      refine ⟨rfl, ?_⟩
      rcases hc : collectTables (tableSpecs s) with ⟨res, n⟩
      cases res with
      | error e =>
        cases e
        have hre := run_fetch_error s info w hi hie (by rw [hc])
        rw [hre] at h
        simp at h
      | ok tables =>
        obtain ⟨hts, hn, hall⟩ := collectTables_ok_inv (tableSpecs s) tables n hc
        cases w with
        | false =>
          rw [run_write_fail s info tables n hi hie hc] at h
          simp at h
        | true =>
          rw [run_write_ok s info tables n hi hie hc] at h
          simp only [] at h
          have hwb := (Option.some.inj (Except.ok.inj h)).symm
          exact ⟨rfl, hall, by rw [hwb, hts]⟩

/-- Transpose correctness at the cell level: entry (j, i) of the transpose
is entry (i, j) of the original frame, for any column index j of the
original. -/
theorem DataFrame.cell_T (df : DataFrame) (i j : Nat)
    (hj : j < df.columns.length) :
    df.T.cell j i = df.cell i j := by
  have hrange : (List.range df.columns.length)[j]? = some j :=
    List.getElem?_range hj
  simp only [DataFrame.T, DataFrame.cell, List.getD_eq_getElem?_getD,
    List.getElem?_map, hrange, Option.map_some]
  cases hrow : df.data[i]? with
  | none => simp [hrow]
  | some row => simp [hrow]

/-- Renaming the row axis does not change the cells. -/
theorem cell_indexName_update (df : DataFrame) (x : Option String) (i j : Nat) :
    ({ df with indexName := x }).cell i j = df.cell i j := rfl

/-! ### Claim theorems -/

/-- Claim C2: for every ticker whose info record is empty or rejected by
the provider, `fetch_and_create_excel` returns failure (None) immediately
and none of the six financial-table fetches is attempted. -/
theorem C2_invalid_ticker_fast_fail (s : Stock) (w : Bool)
    (h : s.infoResult = Except.error () ∨ s.infoResult = Except.ok []) :
    fetch_and_create_excel s w =
      { result := Except.ok none, tableFetches := 0 } := by
  rcases h with h | h
  · simp [fetch_and_create_excel, h]
  · simp [fetch_and_create_excel, h]

/-- Claim C2, witness: a provider-rejected ticker and an empty-info
ticker both fail fast with zero table fetches, although table data would
have been available. -/
theorem C2_invalid_ticker_fast_fail_witness :
    fetch_and_create_excel stockInfoError true =
      { result := Except.ok none, tableFetches := 0 } ∧
    fetch_and_create_excel stockInfoEmpty true =
      { result := Except.ok none, tableFetches := 0 } :=
  ⟨C2_invalid_ticker_fast_fail stockInfoError true (Or.inl rfl),
   C2_invalid_ticker_fast_fail stockInfoEmpty true (Or.inr rfl)⟩

/-- Claim C5, counterexample: the claimed row keys (Full Name, Market
Cap, ..., Forward P/E (PER, forward), ...) are not, character for
character, the keys the code produces: the code suffixes most labels with
a Korean annotation, e.g. the first row key is
`Full Name (전체 이름)`, not `Full Name`. -/
theorem C5_claimed_keys_wrong :
    (stats_df ([] : Info)).index ≠ claimedStatKeys := by decide

/-- Claim C5 (amended): the statistics extraction reads exactly ten named
fields, and the row keys of the Statistics sheet are exactly, in order,
the ten labels of fa.py lines 62-71, most carrying a Korean annotation:
Full Name (전체 이름), Market Cap (시가총액), Trailing P/E (PER),
Price/Book (PBR), Return On Equity (ROE), 5Y EPS Growth (5년 EPS 성장률),
Dividend Yield (배당수익률), Beta (시장 민감도), Forward P/E (선행 PER),
Shares Outstanding (총 발행 주식수) — for every info record, regardless
of input field order. -/
theorem C5_statistics_keys (info : Info) :
    (stats_df info).index =
      ["Full Name (전체 이름)", "Market Cap (시가총액)", "Trailing P/E (PER)",
       "Price/Book (PBR)", "Return On Equity (ROE)",
       "5Y EPS Growth (5년 EPS 성장률)", "Dividend Yield (배당수익률)",
       "Beta (시장 민감도)", "Forward P/E (선행 PER)",
       "Shares Outstanding (총 발행 주식수)"] ∧
    (stats_df info).index.length = 10 ∧
    (key_stats_raw info).map Prod.fst = (stats_df info).index :=
  ⟨rfl, rfl, rfl⟩

/-- Claim C6: when any of the ten expected info keys is absent, the
statistics extraction still produces a row for that metric (under its
sheet label) carrying the missing marker, and the Statistics sheet keeps
a row with that label; no error is raised (the extraction is total). -/
theorem C6_missing_field_tolerated (info : Info) (label field : String)
    (hmem : (label, field) ∈ statFieldSpecs)
    (habs : getField? info field = none) :
    (label, missingDefault field) ∈ key_stats_raw info ∧
    label ∈ (stats_df info).index := by
  have h1 : (label, missingDefault field) ∈ key_stats_raw info := by
    rw [key_stats_raw_eq]
    refine List.mem_map.mpr ⟨(label, field), hmem, ?_⟩
    simp [habs]
  refine ⟨h1, ?_⟩
  show label ∈ (key_stats_raw info).map Prod.fst
  exact List.mem_map.mpr ⟨(label, missingDefault field), h1, rfl⟩

/-- Claim C6, witness: an info record lacking `trailingPE` (here: lacking
every field) still yields a `Trailing P/E (PER)` row, with the null
missing marker. -/
theorem C6_missing_field_tolerated_witness :
    ("Trailing P/E (PER)", Value.null) ∈ key_stats_raw ([] : Info) ∧
    "Trailing P/E (PER)" ∈ (stats_df ([] : Info)).index :=
  C6_missing_field_tolerated [] "Trailing P/E (PER)" "trailingPE"
    (by decide) rfl

/-- Claim C10: the missing marker is not uniform: an absent `longName`
gives the Full Name row the string N/A, while any of the other nine
fields, when absent, gives its row the Python null value — and these two
markers differ. -/
theorem C10_two_missing_markers (info : Info)
    (h1 : getField? info "longName" = none) :
    getField? (key_stats_raw info) "Full Name (전체 이름)" =
      some (Value.str "N/A") ∧
    (∀ label field, (label, field) ∈ statFieldSpecs → field ≠ "longName" →
      getField? info field = none →
      (label, Value.null) ∈ key_stats_raw info) ∧
    Value.str "N/A" ≠ Value.null := by
  refine ⟨?_, ?_, by decide⟩
  · have hstep : getField? (key_stats_raw info) "Full Name (전체 이름)" =
        some ((getField? info "longName").getD (Value.str "N/A")) := by
      simp [key_stats_raw, getField?, List.find?]
    rw [hstep, h1]
    rfl
  · intro label field hmem hne habs
    rw [key_stats_raw_eq]
    refine List.mem_map.mpr ⟨(label, field), hmem, ?_⟩
    simp [habs, missingDefault, hne]

/-- Claim C1, counterexample: with a valid ticker whose six financial
tables are all empty (no table survives the keep filter), the pipeline
does NOT return the no-data failure: it returns a workbook holding only
the Key_Statistics sheet, because the statistics frame always has ten
rows and therefore sets `is_data_present`. -/
theorem C1_stats_only_no_failure :
    (tableSpecs stockAllEmpty).filter keepsTable = [] ∧
    (fetch_and_create_excel stockAllEmpty true).result =
      Except.ok (some [("Key_Statistics", stats_df infoA)]) ∧
    (fetch_and_create_excel stockAllEmpty true).result ≠ Except.ok none := by
  refine ⟨rfl, rfl, ?_⟩
  intro h
  rw [show (fetch_and_create_excel stockAllEmpty true).result =
      Except.ok (some [("Key_Statistics", stats_df infoA)]) from rfl] at h
  simp at h

/-- Claim C1 (amended): if all six financial tables are empty or missing,
the pipeline does not fail: it returns a workbook containing exactly the
Key_Statistics sheet.  The statistics sheet alone DOES count as
sufficient data, so the no-data failure branch is not taken. -/
theorem C1_all_tables_empty_returns_stats_workbook (s : Stock) (info : Info)
    (h1 : s.infoResult = Except.ok info) (h2 : info.isEmpty = false)
    (h3 : ∀ p ∈ tableSpecs s, ∃ df, p.2 = Except.ok df ∧ df.empty = true) :
    (fetch_and_create_excel s true).result =
      Except.ok (some [("Key_Statistics", stats_df info)]) := by
  have hall : ∀ p ∈ tableSpecs s, p.2 ≠ Except.error () := by
    intro p hp he
    obtain ⟨df, hdf, _⟩ := h3 p hp
    rw [hdf] at he
    cases he
  have hnone : ∀ p ∈ tableSpecs s, pickTable p = none := by
    intro p hp
    obtain ⟨df, hdf, hde⟩ := h3 p hp
    simp [pickTable, hdf, hde]
  have hfm : (tableSpecs s).filterMap pickTable = [] :=
    List.filterMap_eq_nil_iff.mpr hnone
  have hc : collectTables (tableSpecs s) =
      (Except.ok ([] : List (String × DataFrame)), (tableSpecs s).length) := by
    rw [collectTables_all_ok (tableSpecs s) hall, hfm]
  rw [run_write_ok s info [] (tableSpecs s).length h1 h2 hc]
  rfl

/-- Claim C1 (amended), witness: on the all-empty stock the returned
workbook is exactly the statistics-only workbook. -/
theorem C1_all_tables_empty_witness :
    (fetch_and_create_excel stockAllEmpty true).result =
      Except.ok (some [("Key_Statistics", stats_df infoA)]) :=
  C1_all_tables_empty_returns_stats_workbook stockAllEmpty infoA rfl rfl
    (by intro p hp
        simp [tableSpecs] at hp
        rcases hp with h | h | h | h | h | h <;>
          (subst h; exact ⟨emptyDF, rfl, rfl⟩))

/-- Claim C3, counterexample: with a valid non-empty info record, a
provider-side error on the first table fetch is NOT absorbed: the
exception escapes `fetch_and_create_excel` (no None, no workbook) and the
remaining five table fetches are never attempted, although they would
have returned data. -/
theorem C3_table_error_not_absorbed :
    stockTableError.financials = Except.error () ∧
    (fetch_and_create_excel stockTableError true).result = Except.error () ∧
    (fetch_and_create_excel stockTableError true).tableFetches = 1 :=
  ⟨rfl, rfl, rfl⟩

/-- Claim C3 (amended): with a valid non-empty info record, a
provider-side error on any one of the six table fetches is not caught:
the exception propagates out of the pipeline (aborting it), and when the
failing fetch is the first one, the remaining five fetches are not
attempted.  Only an empty-but-successful fetch is absorbed as an omitted
sheet. -/
theorem C3_table_error_aborts (s : Stock) (info : Info) (w : Bool)
    (p : String × Except Unit DataFrame)
    (h1 : s.infoResult = Except.ok info) (h2 : info.isEmpty = false)
    (hp : p ∈ tableSpecs s) (he : p.2 = Except.error ()) :
    (fetch_and_create_excel s w).result = Except.error () ∧
    (s.financials = Except.error () →
      (fetch_and_create_excel s w).tableFetches = 1) := by
  have herr : (collectTables (tableSpecs s)).1 = Except.error () :=
    collectTables_error_of_mem (tableSpecs s) p hp he
  have hrun := run_fetch_error s info w h1 h2 herr
  constructor
  · rw [hrun]
  · intro hf
    rw [hrun]
    show (collectTables (tableSpecs s)).2 = 1
    simp [tableSpecs, collectTables, hf]

/-- Claim C3 (amended), witness: the concrete aborting stock. -/
theorem C3_table_error_aborts_witness :
    (fetch_and_create_excel stockTableError true).result = Except.error () ∧
    (stockTableError.financials = Except.error () →
      (fetch_and_create_excel stockTableError true).tableFetches = 1) :=
  C3_table_error_aborts stockTableError infoA true
    ("Income_Statement (연간)", Except.error ())
    rfl rfl (by simp [tableSpecs, stockTableError]) rfl

/-- Claim C4: in every returned workbook, each financial sheet is the
transpose of its fetched table (periods become rows, line items become
columns: cell (j, i) of the sheet is cell (i, j) of the table, the sheet
row labels are the table column labels and conversely) with its row axis
labelled Date, while the Key_Statistics sheet is the untransposed
statistics frame with metric names as rows and a single Value column. -/
theorem C4_transpose_and_stats_layout (s : Stock) (w : Bool) (info : Info)
    (wb : List (String × DataFrame)) (nm : String) (sheet : DataFrame)
    (h1 : s.infoResult = Except.ok info)
    (h2 : (fetch_and_create_excel s w).result = Except.ok (some wb))
    (hmem : (nm, sheet) ∈ wb) :
    (nm = "Key_Statistics" →
      sheet = stats_df info ∧ sheet.columns = ["Value"] ∧
      sheet.index = (key_stats_raw info).map Prod.fst) ∧
    (nm ≠ "Key_Statistics" →
      ∃ df, (nm, Except.ok df) ∈ tableSpecs s ∧ df.empty = false ∧
        sheet = { df.T with indexName := some "Date" } ∧
        sheet.indexName = some "Date" ∧
        sheet.index = df.columns ∧ sheet.columns = df.index ∧
        ∀ i j, j < df.columns.length → sheet.cell j i = df.cell i j) := by
  obtain ⟨info2, hi2, hne, hw, hall, hwb⟩ := run_success_inv s w wb h2
  rw [h1] at hi2
  have hinfo : info = info2 := Except.ok.inj hi2
  subst hinfo
  subst hwb
  rcases List.mem_append.mp hmem with hL | hR
  · obtain ⟨p, hpfd, hpne, hq⟩ := mem_writeSheets _ _ hL
    have hnm : nm = p.1 := congrArg Prod.fst hq
    have hsh : sheet = writtenSheet p.1 p.2 := congrArg Prod.snd hq
    obtain ⟨hmemSpec, hne2⟩ := mem_pickTable_inv _ p hpfd
    have hKS : p.1 ≠ "Key_Statistics" := tableSpecs_name_ne s p.1 _ hmemSpec
    have hws : writtenSheet p.1 p.2 = { p.2.T with indexName := some "Date" } :=
      if_neg hKS
    have hsheet : sheet = { p.2.T with indexName := some "Date" } :=
      hsh.trans hws
    constructor
    · intro hcon
      exact absurd (hnm.symm.trans hcon) hKS
    · intro _
      refine ⟨p.2, hnm ▸ hmemSpec, hne2, hsheet, ?_, ?_, ?_, ?_⟩
      · rw [hsheet]
      · rw [hsheet]; rfl
      · rw [hsheet]; rfl
      · intro i j hj
        rw [hsheet, cell_indexName_update]
        exact DataFrame.cell_T p.2 i j hj
  · have hq := List.mem_singleton.mp hR
    have hnm : nm = "Key_Statistics" := congrArg Prod.fst hq
    have hsh : sheet = stats_df info := congrArg Prod.snd hq
    constructor
    · intro _
      exact ⟨hsh, by rw [hsh]; rfl, by rw [hsh]; rfl⟩
    · intro hcon
      exact absurd hnm hcon

/-- Claim C4, witness: on the mixed stock the annual income sheet is the
transposed table with Date row axis, at the concrete workbook. -/
theorem C4_transpose_and_stats_layout_witness :
    ((("Income_Statement (연간)" : String) = "Key_Statistics" →
      { dfIncomeA.T with indexName := some "Date" } = stats_df infoA ∧
      ({ dfIncomeA.T with indexName := some "Date" } : DataFrame).columns =
        ["Value"] ∧
      ({ dfIncomeA.T with indexName := some "Date" } : DataFrame).index =
        (key_stats_raw infoA).map Prod.fst) ∧
    (("Income_Statement (연간)" : String) ≠ "Key_Statistics" →
      ∃ df, (("Income_Statement (연간)" : String), Except.ok df) ∈
          tableSpecs stockMixed ∧ df.empty = false ∧
        ({ dfIncomeA.T with indexName := some "Date" } : DataFrame) =
          { df.T with indexName := some "Date" } ∧
        ({ dfIncomeA.T with indexName := some "Date" } : DataFrame).indexName =
          some "Date" ∧
        ({ dfIncomeA.T with indexName := some "Date" } : DataFrame).index =
          df.columns ∧
        ({ dfIncomeA.T with indexName := some "Date" } : DataFrame).columns =
          df.index ∧
        ∀ i j, j < df.columns.length →
          ({ dfIncomeA.T with indexName := some "Date" } : DataFrame).cell j i =
            df.cell i j)) :=
  C4_transpose_and_stats_layout stockMixed true infoA
    [("Income_Statement (연간)", { dfIncomeA.T with indexName := some "Date" }),
     ("Cash_Flow (연간)", { dfCashA.T with indexName := some "Date" }),
     ("Key_Statistics", stats_df infoA)]
    "Income_Statement (연간)" ({ dfIncomeA.T with indexName := some "Date" })
    rfl rfl (List.mem_cons_self _ _)

/-- Claim C8, counterexample: a source table with one row but zero
columns counts as empty for pandas, so its sheet is omitted although the
table is non-null and has at least one row: the workbook keeps only the
statistics sheet. -/
theorem C8_row_without_columns_excluded :
    rowNoColDF.index.length = 1 ∧
    stockRowNoCol.financials = Except.ok rowNoColDF ∧
    (fetch_and_create_excel stockRowNoCol true).result =
      Except.ok (some [("Key_Statistics", stats_df infoA)]) ∧
    "Income_Statement (연간)" ∉
      ([("Key_Statistics", stats_df infoA)]).map Prod.fst := by
  refine ⟨rfl, rfl, rfl, ?_⟩
  decide

/-- Claim C8 (amended): every returned workbook contains exactly those
financial sheets whose source table was fetched successfully and is
non-empty in the pandas sense (at least one row AND at least one column),
in the fixed program order, followed by Key_Statistics; the sheet-name
sequence is a subsequence of the fixed seven-name order. -/
theorem C8_sheet_set_and_order (s : Stock) (w : Bool)
    (wb : List (String × DataFrame))
    (h2 : (fetch_and_create_excel s w).result = Except.ok (some wb)) :
    wb.map Prod.fst =
      ((tableSpecs s).filter keepsTable).map Prod.fst ++ ["Key_Statistics"] ∧
    List.Sublist (wb.map Prod.fst) sheetNameOrder := by
  obtain ⟨info2, hi2, hne, hw, hall, hwb⟩ := run_success_inv s w wb h2
  subst hwb
  have hkeep : ((tableSpecs s).filterMap pickTable).filter
        (fun p => !p.2.empty) = (tableSpecs s).filterMap pickTable :=
    List.filter_eq_self.mpr (fun p hp => by
      have hne3 := (mem_pickTable_inv _ p hp).2
      simp [hne3])
  have hfst : (writeSheets ((tableSpecs s).filterMap pickTable)).map Prod.fst =
      ((tableSpecs s).filter keepsTable).map Prod.fst := by
    rw [writeSheets, hkeep, List.map_map, ← filterMap_pickTable_fst]
    rfl
  have hmain : (writeSheets ((tableSpecs s).filterMap pickTable) ++
        [("Key_Statistics", stats_df info2)]).map Prod.fst =
      ((tableSpecs s).filter keepsTable).map Prod.fst ++ ["Key_Statistics"] := by
    rw [List.map_append, hfst]
    rfl
  refine ⟨hmain, ?_⟩
  rw [hmain]
  show List.Sublist _ ((tableSpecs s).map Prod.fst ++ ["Key_Statistics"])
  exact List.Sublist.append
    (List.Sublist.map Prod.fst (List.filter_sublist (tableSpecs s)))
    (List.Sublist.refl _)

/-- Claim C8 (amended), witness: on the mixed stock the sheet names are
the two non-empty annual sheets followed by Key_Statistics, a
subsequence of the fixed order. -/
theorem C8_sheet_set_and_order_witness :
    ([("Income_Statement (연간)",
        { dfIncomeA.T with indexName := some "Date" }),
      ("Cash_Flow (연간)", { dfCashA.T with indexName := some "Date" }),
      ("Key_Statistics", stats_df infoA)]).map Prod.fst =
      ((tableSpecs stockMixed).filter keepsTable).map Prod.fst ++
        ["Key_Statistics"] ∧
    List.Sublist
      (([("Income_Statement (연간)",
          { dfIncomeA.T with indexName := some "Date" }),
        ("Cash_Flow (연간)", { dfCashA.T with indexName := some "Date" }),
        ("Key_Statistics", stats_df infoA)]).map Prod.fst)
      sheetNameOrder :=
  C8_sheet_set_and_order stockMixed true
    [("Income_Statement (연간)", { dfIncomeA.T with indexName := some "Date" }),
     ("Cash_Flow (연간)", { dfCashA.T with indexName := some "Date" }),
     ("Key_Statistics", stats_df infoA)]
    rfl

/-- Claim C7: when the pipeline reaches the spreadsheet-writing step and
that step raises, the function returns the failure signal None, and no
(partial) workbook buffer is ever exposed to the caller. -/
theorem C7_write_error_returns_none (s : Stock) (info : Info)
    (tables : List (String × DataFrame)) (n : Nat)
    (h1 : s.infoResult = Except.ok info) (h2 : info.isEmpty = false)
    (h3 : collectTables (tableSpecs s) = (Except.ok tables, n)) :
    (fetch_and_create_excel s false).result = Except.ok none ∧
    ∀ wb, (fetch_and_create_excel s false).result ≠ Except.ok (some wb) := by
  have h := run_write_fail s info tables n h1 h2 h3
  constructor
  · rw [h]
  · intro wb hc
    rw [h] at hc
    simp at hc

/-- Claim C7, witness: on the mixed stock with a failing writer, the
result is None and no workbook is returned. -/
theorem C7_write_error_returns_none_witness :
    (fetch_and_create_excel stockMixed false).result = Except.ok none ∧
    ∀ wb, (fetch_and_create_excel stockMixed false).result ≠
      Except.ok (some wb) :=
  C7_write_error_returns_none stockMixed infoA
    [("Income_Statement (연간)", dfIncomeA), ("Cash_Flow (연간)", dfCashA)] 6
    rfl rfl rfl

/-- Claim C9: for every info record — even one lacking all ten expected
keys — the statistics table has exactly ten rows and is never empty;
consequently, whenever the info record is valid and non-empty, all table
reads succeed and the writer raises no error, the no-data branch is dead:
the pipeline returns a (non-empty) workbook buffer. -/
theorem C9_no_data_branch_unreachable :
    (∀ info : Info, (key_stats_raw info).length = 10 ∧
      (stats_df info).empty = false) ∧
    (∀ (s : Stock) (info : Info) (tables : List (String × DataFrame)) (n : Nat),
      s.infoResult = Except.ok info → info.isEmpty = false →
      collectTables (tableSpecs s) = (Except.ok tables, n) →
      ∃ wb, (fetch_and_create_excel s true).result = Except.ok (some wb) ∧
        wb ≠ []) := by
  refine ⟨fun info => ⟨rfl, rfl⟩, ?_⟩
  intro s info tables n h1 h2 h3
  refine ⟨writeSheets tables ++ [("Key_Statistics", stats_df info)], ?_, ?_⟩
  · rw [run_write_ok s info tables n h1 h2 h3]
  · simp

/-- Claim C9, witness: a ticker whose info record lacks every one of the
ten statistics fields and whose tables are all empty still yields a
ten-row statistics table and a returned workbook. -/
theorem C9_no_data_branch_unreachable_witness :
    ((key_stats_raw infoBare).length = 10 ∧
      (stats_df infoBare).empty = false) ∧
    ∃ wb, (fetch_and_create_excel stockBare true).result =
      Except.ok (some wb) ∧ wb ≠ [] :=
  ⟨C9_no_data_branch_unreachable.1 infoBare,
   C9_no_data_branch_unreachable.2 stockBare infoBare [] 6 rfl rfl rfl⟩

/-- Claim C10, witness: on the empty info record, the Full Name row holds
the string N/A while the Market Cap row holds null. -/
theorem C10_two_missing_markers_witness :
    getField? (key_stats_raw ([] : Info)) "Full Name (전체 이름)" =
      some (Value.str "N/A") ∧
    ("Market Cap (시가총액)", Value.null) ∈ key_stats_raw ([] : Info) ∧
    Value.str "N/A" ≠ Value.null := by
  have h := C10_two_missing_markers [] rfl
  exact ⟨h.1, h.2.1 "Market Cap (시가총액)" "marketCap" (by decide)
    (by decide) rfl, h.2.2⟩

end YFin
